import Mathlib

/-
Verification development for the lopper isospec assist
(src/lopper/assists/isospec.py).

The Python module resolves an abstract isolation specification (a JSON
tree of subsystems, CPU entries and access rules) against a concrete
hardware device tree, producing resolved CPU cluster descriptors and
access/memory/sram lists.  The definitions below are a shallow embedding
of that module: pure helpers become Lean functions, the external lopper
tree API (an out-of-scope collaborator) is represented by abstract
function fields, Python exceptions that the module catches locally are
modelled by Option / explicit branch results, and the fatal
sys.exit-raising path is modelled with Except.
-/

set_option autoImplicit false

namespace Isospec

/-! ## String helpers

The Python module matches fixed regular expressions with re.search and
re.match.  Each fixed pattern is embedded by a Lean function computing
the same semantics on the matched string. -/

/-- Substring test on character lists: pat occurs somewhere in the list. -/
def containsSub (pat : List Char) : List Char → Bool
  | [] => pat.isPrefixOf ([] : List Char)
  | c :: rest => pat.isPrefixOf (c :: rest) || containsSub pat rest

/-- Substring test on strings; re.search of a literal pattern succeeds
exactly when the pattern occurs as a substring. -/
def containsStr (s pat : String) : Bool :=
  containsSub pat.data s.data

/-- Semantics of re.match applied to the raw pattern dot-star-lazy
followed by a captured digit group, as in isospec_process_cpus line 126:
the capture is the maximal digit run starting at the first digit of the
string, or none when the string has no digit. -/
def firstDigitRunAux : List Char → Option (List Char)
  | [] => none
  | c :: rest =>
      if c.isDigit then some (c :: rest.takeWhile Char.isDigit)
      else firstDigitRunAux rest

/-- String version of the captured digit group of re.match on a cpu name. -/
def firstDigitRun (s : String) : Option String :=
  (firstDigitRunAux s.data).map fun l => String.mk l

/-- Python int() on a string of decimal digits. -/
def digitsToNat (s : String) : Nat :=
  s.data.foldl (fun a c => a * 10 + (c.toNat - 48)) 0

/-- Python hex() on a non-negative integer: prefix 0x and lowercase
hexadecimal digits. -/
def pyhex (n : Nat) : String :=
  "0x" ++ String.mk (Nat.toDigits 16 n)

/-! ## Bit utilities (isospec.py lines 67-77) -/

/-- Tests whether bit k of n is set (check_bit_set). -/
def check_bit_set (n k : Nat) : Bool :=
  n.land (1 <<< k) != 0

/-- Sets bit of value (set_bit). -/
def set_bit (value bit : Nat) : Nat :=
  value.lor (1 <<< bit)

/-! ## Name-pattern classifier tables

iso_cpus_to_device_tree_map maps the fixed patterns APU-star and
RPU-star to device tree compatible strings.  Since the star quantifier
may match the empty string, re.search of those patterns succeeds exactly
when the string contains AP, respectively RP, as a substring. -/

/-- Semantics of re.search with the fixed pattern APU-star. -/
def matchAPU (s : String) : Bool := containsStr s "AP"

/-- Semantics of re.search with the fixed pattern RPU-star. -/
def matchRPU (s : String) : Bool := containsStr s "RP"

/-- Semantics of re.search with the fixed literal pattern DDR0. -/
def matchDDR0 (s : String) : Bool := containsStr s "DDR0"

/-- Semantics of re.search with the fixed pattern OCM dot-star; the
dot-star may match the empty string, so this is containment of OCM. -/
def matchOCM (s : String) : Bool := containsStr s "OCM"

/-- The ordered cpu-name table iso_cpus_to_device_tree_map: matcher
paired with the device tree compatible string. -/
def iso_cpus_to_device_tree_map : List ((String → Bool) × String) :=
  [(matchAPU, "arm,cortex-a72"), (matchRPU, "arm,cortex-r5")]

/-- The scan in isospec_process_cpus lines 117-120: iterate the table in
order; each match overwrites the previous result (the loop has no
break), so the last matching entry wins; no match leaves the empty
string. -/
def lookup_compat (cpu_name : String) : String :=
  iso_cpus_to_device_tree_map.foldl
    (fun acc e => if e.1 cpu_name then e.2 else acc) ""

/-- One entry of iso_memory_device_map: a matcher for the name, the
memory type string, and the optional device-tree lookup pattern (the
OCM entry carries Python None there). -/
structure MemMapEntry where
  pmatch : String → Bool
  mtype : String
  dest : Option String

/-- The ordered memory table iso_memory_device_map (lines 235-238). -/
def iso_memory_device_map : List MemMapEntry :=
  [⟨matchDDR0, "memory", some "memory@.*"⟩, ⟨matchOCM, "sram", none⟩]

/-- The scan shared by isospec_memory_type, isospec_memory_dest and the
classification step of isospec_process_access: iterate the table in
order, each match overwriting mem_found (no break), so the last match
wins; none when nothing matched. -/
def isospec_memory_scan (name : String) : Option MemMapEntry :=
  iso_memory_device_map.foldl
    (fun acc e => if e.pmatch name then some e else acc) none

/-- isospec_memory_type (lines 240-249): the type field of the scan
result, or the empty string when no pattern matched. -/
def isospec_memory_type (name : String) : String :=
  match isospec_memory_scan name with
  | some e => e.mtype
  | none => ""

/-- isospec_memory_dest (lines 251-260): the lookup-pattern field of the
scan result (which is Python None for the OCM entry, embedded as none),
or the empty string when no pattern matched. -/
def isospec_memory_dest (name : String) : Option String :=
  match isospec_memory_scan name with
  | some e => e.dest
  | none => some ""

/-! ## Destinations in the isolation-spec tree

A destination record is a JSON dict with a name and optional addr and
size fields (a field access on a missing key raises KeyError in Python,
caught by the enclosing handler at each use site, hence Option). -/

structure Dest where
  name : String
  addr : Option Nat
  size : Option Nat
deriving DecidableEq, Repr

/-- An element of a json destinations property: either a dict (with a
name field) or something else; indexing a non-dict with a string key
raises TypeError, which aborts the scan of the rest of that property
(the dict-without-name case raises as well and is embedded by nonDict,
since both abort the element loop identically). -/
inductive DestElem where
  | dict (d : Dest)
  | nonDict
deriving DecidableEq, Repr

/-- A destinations property: its pclass tag and its element list. -/
structure DestsProp where
  pclass : String
  elems : List DestElem
deriving DecidableEq, Repr

/-- A node of the isolation-spec tree, as far as the destination scan is
concerned: it may or may not carry a destinations property. -/
structure SpecNode where
  dests : Option DestsProp
deriving DecidableEq, Repr

/-- destinations (lines 80-94): all nodes of the tree carrying a
destinations property. -/
def destinations (tree : List SpecNode) : List SpecNode :=
  tree.filter (fun n => n.dests.isSome)

/-- The element loop of isospec_device_destination (lines 463-466):
collect every dict element whose name equals the requested destination;
a non-dict element raises, the exception is caught and the rest of that
property is skipped. -/
def collectMatches (destName : String) : List DestElem → List Dest
  | [] => []
  | DestElem.nonDict :: _ => []
  | DestElem.dict d :: rest =>
      (if d.name = destName then [d] else []) ++ collectMatches destName rest

/-- The spec tree as consumed by this module: the flat node list that
the destination scan walks, plus the default-settings area consulted by
isospec_device_defaults (shape given below). -/
structure DefDevice where
  name : String
  /-- propval of the flags property; the lopper propval contract returns
  a one-element list holding the empty string when the property is
  absent, and the raw value list otherwise. -/
  flags_propval : List String
  /-- properties of a flags child node, as pairs of name and value. -/
  flags_children : List (String × String)
  /-- propval of the destinations property. -/
  destinations_propval : List String
deriving DecidableEq, Repr

/-- A child of the default-settings access node area: name and device
children (node named access holds the per-device defaults). -/
structure DefAccessNode where
  name : String
  children : List DefDevice
deriving DecidableEq, Repr

/-- A child of the default-settings subsystems node. -/
structure DefSubsystem where
  name : String
  children : List DefAccessNode
deriving DecidableEq, Repr

/-- The isolation-spec JSON tree, restricted to what the module reads.
Modelled from the spec: the lopper tree path-lookup collaborator
(node_at_path) is outside this module and is specified in section 6 as
returning Node or absent, so the two absolute path lookups of
isospec_device_defaults are embedded as a presence flag and an Option. -/
structure JsonTree where
  spec_nodes : List SpecNode
  has_default_settings : Bool
  default_subsystems : Option (List DefSubsystem)

/-- isospec_device_defaults (lines 403-438): walk to
default_settings/subsystems, pick the last child named default (the
loop has no break), then the first child named access of it, then the
first child of that named like the device; any absence yields none. -/
def isospec_device_defaults (device_name : String) (jt : JsonTree) :
    Option DefDevice :=
  if !jt.has_default_settings then none
  else
    match jt.default_subsystems with
    | none => none
    | some subs =>
      match subs.foldl
          (fun acc s => if s.name = "default" then some s else acc)
          (none : Option DefSubsystem) with
      | none => none
      | some ds =>
        match (ds.children.filter (fun c => c.name = "access")).head? with
        | none => none
        | some da =>
          match (da.children.filter (fun c => c.name = device_name)).head? with
          | none => none
          | some dd => some dd

/-- isospec_device_destination (lines 440-478): for each requested name,
scan every node carrying a destinations property; only json-class
properties are searched; matches accumulate in request order then node
order. -/
def isospec_device_destination (destination_list : List String)
    (jt : JsonTree) : List Dest :=
  let dnodes := destinations jt.spec_nodes
  destination_list.flatMap fun destName =>
    dnodes.flatMap fun n =>
      match n.dests with
      | some p => if p.pclass = "json" then collectMatches destName p.elems else []
      | none => []

/-! ## Flags extraction (isospec_device_flags, lines 203-231) -/

/-- An element of the flags working list in isospec_device_flags: either
a raw propval value (plain values have no value attribute, so the loop
body raises AttributeError on them, caught and ignored), or a property
object appended from a flags child node. -/
inductive FlagItem where
  | raw (v : String)
  | prop (name v : String)
deriving DecidableEq, Repr

/-- Dict-insertion of a key mapped to True (insertion order preserved,
re-insertion leaves the dict unchanged as the value is always True). -/
def dictInsert (d : List String) (k : String) : List String :=
  if k ∈ d then d else d ++ [k]

/-- isospec_device_flags: start from the flags propval; when its first
value is falsy (empty string, the absent-property convention) append
every property of a flags child node; then each property object with a
non-empty value contributes its name as a True flag, a raw value
contributes nothing (its attribute access raises and is ignored).  The
resulting dict is represented by its ordered key list, every key being
mapped to True. -/
def isospec_device_flags (defs : DefDevice) : List String :=
  let flags := defs.flags_propval.map FlagItem.raw
  let flags :=
    if defs.flags_propval.headD "" = "" then
      flags ++ defs.flags_children.map (fun p => FlagItem.prop p.1 p.2)
    else flags
  flags.foldl
    (fun acc f =>
      match f with
      | FlagItem.raw _ => acc
      | FlagItem.prop n v => if v ≠ "" then dictInsert acc n else acc)
    []

/-! ## The hardware device tree interface

The system device tree handle sdt.tree is an external collaborator
(section 6 of the design: nodes_matching, address_node, compatible-node
lookup); it is embedded as abstract lookup functions over the node
shapes this module reads. -/

/-- The parent cluster of a cpu node: label (empty when unset) and name. -/
structure HwCluster where
  label : String
  name : String
deriving DecidableEq, Repr

/-- A hardware cpu node matched by compatible string: its name and its
optional parent cluster. -/
structure HwCpuNode where
  name : String
  parent : Option HwCluster
deriving DecidableEq, Repr

/-- A hardware node considered by the memory lookup: the value list of
its device_type property (none when the property is absent, in which
case reading it raises), and its reg cells (32-bit device-tree cells;
none when absent). -/
structure MemNode where
  device_type : Option (List String)
  reg : Option (List Nat)
deriving DecidableEq, Repr

/-- A hardware node found by address lookup. -/
structure HwAddrNode where
  name : String
deriving DecidableEq, Repr

/-- The system device tree: compatible-string lookup (cnodes), node-name
pattern lookup (nodes) and address lookup (addr_node). -/
structure SDT where
  cnodes : String → List HwCpuNode
  nodes : String → List MemNode
  addr_node : Nat → Option HwAddrNode

/-! ## CPU resolver (isospec_process_cpus, lines 102-201) -/

/-- A cpu entry of a subsystem: name, optional secure flag, optional
mode string (absent fields raise KeyError in the loop body, caught and
defaulted). -/
structure CpuEntry where
  name : String
  secure : Option Bool
  mode : Option String
deriving DecidableEq, Repr

/-- A resolved cluster record as appended to cpus_list: cluster name,
hex cpumask string, and the mode sub-dict of secure flag and hex
exception-level mask string. -/
structure ResolvedCluster where
  cluster : String
  cpumask : String
  secure : Bool
  el : String
deriving DecidableEq, Repr

/-- Outcome of one iteration of the cpu loop body. -/
inductive CpuStep where
  | noCompat
  | noNodes
  | noCluster
  | ok (rc : ResolvedCluster)
deriving DecidableEq, Repr

/-- One iteration of the loop body of isospec_process_cpus: classify the
name (last table match wins); an unmapped name warns and continues; the
numeric suffix selects a single cpu index, its absence selects the whole
cluster (mask 0xf); no compatible hardware node leaves the entry
silently skipped (the if statement at line 135 has no else branch); a
matching node without a parent warns and aborts the whole list; else
build the resolved record, setting bit i of the mask only when a node
whose name contains cpu at that index exists, the secure flag from the
entry (defaulting false), and mode mask 3 exactly when mode equals el. -/
def process_one_cpu (sdt : SDT) (cpu : CpuEntry) : CpuStep :=
  let device_tree_compat := lookup_compat cpu.name
  if device_tree_compat = "" then CpuStep.noCompat
  else
    let cpu_number := firstDigitRun cpu.name
    match sdt.cnodes device_tree_compat with
    | [] => CpuStep.noNodes
    | n0 :: rest =>
      match n0.parent with
      | none => CpuStep.noCluster
      | some cpu_cluster =>
        let cluster_name :=
          if cpu_cluster.label = "" then cpu_cluster.name else cpu_cluster.label
        let cluster_mask :=
          match cpu_number with
          | some num =>
              (n0 :: rest).foldl
                (fun m c =>
                  if containsStr c.name ("cpu@" ++ num) then
                    set_bit m (digitsToNat num)
                  else m)
                0
          | none => 0xf
        let secure :=
          match cpu.secure with
          | some b => b
          | none => false
        let mode_mask :=
          match cpu.mode with
          | some m => if m = "el" then set_bit (set_bit 0 0) 1 else 0
          | none => 0
        CpuStep.ok
          { cluster := cluster_name
            cpumask := pyhex cluster_mask
            secure := secure
            el := pyhex mode_mask }

/-- isospec_process_cpus: fold the loop body over the entry list in
order; an unmapped name logs a warning and continues, an entry without
matching hardware nodes is skipped silently, a missing parent cluster
logs a warning and returns None for the whole list; the second
component collects the warning messages emitted. -/
def isospec_process_cpus (sdt : SDT) :
    List CpuEntry → Option (List ResolvedCluster) × List String
  | [] => (some [], [])
  | c :: rest =>
    match process_one_cpu sdt c with
    | CpuStep.noCompat =>
        let (r, w) := isospec_process_cpus sdt rest
        (r, ("cpus entry " ++ c.name ++ " has no device tree mapping") :: w)
    | CpuStep.noNodes => isospec_process_cpus sdt rest
    | CpuStep.noCluster => (none, ["no cluster found for cpus, returning"])
    | CpuStep.ok rc =>
        let (r, w) := isospec_process_cpus sdt rest
        (r.map (fun l => rc :: l), w)

/-! ## Memory and sram region resolver (isospec_process_memory, 262-328) -/

/-- A resolved memory or sram region. -/
structure Region where
  start : Nat
  size : Nat
deriving DecidableEq, Repr

/-- Big-endian concatenation of 32-bit device-tree cells, as produced by
packing each cell as four big-endian bytes and reading the byte string
as one big-endian integer (encode_byte_array followed by
int.from_bytes); the tree provider guarantees each cell fits 32 bits. -/
def cellsToNat (cells : List Nat) : Nat :=
  cells.foldl (fun a c => a * 2 ^ 32 + c) 0

/-- Processing of one candidate memory node (lines 277-306).  The log
statement at line 278 reads the device_type property outside the try
block, so its absence raises out of the whole function (error); inside
the try, a node whose device_type value contains memory has its reg
cells split after address_cells = 2: the first two cells are the start
and ALL remaining cells the size; a missing reg raises inside the try
and only skips the node. -/
def process_mem_node (n : MemNode) : Except Unit (List Region) :=
  match n.device_type with
  | none => Except.error ()
  | some dt =>
    if "memory" ∈ dt then
      match n.reg with
      | none => Except.ok []
      | some cells =>
          Except.ok [⟨cellsToNat (cells.take 2), cellsToNat (cells.drop 2)⟩]
    else Except.ok []

/-- The node loop of the memory branch: regions accumulate in node
order; an uncaught exception aborts the whole function (the local
accumulation is discarded because the function never returns). -/
def process_mem_nodes : List MemNode → Except Unit (List Region)
  | [] => Except.ok []
  | n :: rest =>
    match process_mem_node n with
    | Except.error e => Except.error e
    | Except.ok rs =>
      match process_mem_nodes rest with
      | Except.error e => Except.error e
      | Except.ok rs2 => Except.ok (rs ++ rs2)

/-- isospec_process_memory: classify the name; in the memory branch look
up candidate nodes by the table pattern (a failing lookup, including the
Python None pattern of the OCM entry, yields the empty candidate list
via the try block of lines 271-275) and process them; in the sram branch
read the destination address (a missing addr field raises out of the
function), look it up by address: a hit only logs a warning — today no
processing is available — while a miss fabricates the region from the
destination fields (a missing size raises).  The second result component
lists the warnings emitted. -/
def isospec_process_memory (name : String) (dest : Dest) (sdt : SDT) :
    Except Unit (List Region × List String) :=
  let memory_dest := isospec_memory_dest name
  let memory_type := isospec_memory_type name
  if memory_type = "memory" then
    let possible_mem_nodes :=
      match memory_dest with
      | some d => sdt.nodes d
      | none => []
    match process_mem_nodes possible_mem_nodes with
    | Except.error e => Except.error e
    | Except.ok rs => Except.ok (rs, [])
  else if memory_type = "sram" then
    match dest.addr with
    | none => Except.error ()
    | some address =>
      match sdt.addr_node address with
      | some t =>
          Except.ok ([], ["target node " ++ t.name ++
            " found, but no processing is available"])
      | none =>
        match dest.size with
        | none => Except.error ()
        | some size => Except.ok ([⟨address, size⟩], [])
  else Except.ok ([], [])

/-! ## Access resolver (isospec_process_access, lines 332-401) -/

/-- A child node of the access node of a subsystem: its name, whether it
carries a same_as_default property, and its own destinations propval.
The resolver reads only the name and the same_as_default property; the
own destinations of the child are never consulted. -/
structure AccessChild where
  name : String
  same_as_default : Bool
  own_destinations : List String
deriving DecidableEq, Repr

/-- A resolved device access entry: device name and flag dict (the key
list, every key mapped to True). -/
structure AccessEntry where
  dev : String
  flags : List String
deriving DecidableEq, Repr

/-- The destination loop of isospec_process_access (lines 362-395).  Per
destination: read its address (absence raises into the handler) and look
it up; a hit appends a device entry; otherwise the handler rescans the
memory table on the name: a match delegates to the region resolver and
extends the matching list with no warning, while an exception raised
there (SystemExit excluded, this is an ordinary exception) escapes the
handler into the outer per-child handler, aborting the rest of the loop
but keeping what was already appended (final Bool component true); no
table match logs a warning and drops the destination. -/
def process_dests (flag_mapping : List String) (sdt : SDT) :
    List Dest →
      List AccessEntry × List Region × List Region × List String × Bool
  | [] => ([], [], [], [], false)
  | d :: rest =>
    let hit : Option AccessEntry :=
      match d.addr with
      | none => none
      | some address =>
        match sdt.addr_node address with
        | some t => some ⟨t.name, flag_mapping⟩
        | none => none
    match hit with
    | some entry =>
      let (a, m, s, w, ab) := process_dests flag_mapping sdt rest
      (entry :: a, m, s, w, ab)
    | none =>
      match isospec_memory_scan d.name with
      | some _ =>
        match isospec_process_memory d.name d sdt with
        | Except.error _ => ([], [], [], [], true)
        | Except.ok (ml, mw) =>
          let (a, m, s, w, ab) := process_dests flag_mapping sdt rest
          let m2 := if isospec_memory_type d.name = "memory" then ml ++ m else m
          let s2 := if isospec_memory_type d.name = "sram" then ml ++ s else s
          (a, m2, s2, mw ++ w, ab)
      | none =>
        let (a, m, s, w, ab) := process_dests flag_mapping sdt rest
        (a, m, s, ("isospec: process_access: no node found for " ++ d.name) :: w, ab)

/-- One child of the access node (the body of the loop at line 338).  A
child without a same_as_default property raises KeyError on the first
statement of the try block, caught by the catch-all at line 397 and
ignored: the child contributes nothing and logs nothing.  A child with
it resolves the device defaults — their absence is fatal (the _error
call exits, a SystemExit that no except Exception handler catches) —
then extracts flags from the default definition, resolves the default
destinations against the spec tree and runs the destination loop. -/
def process_access_child (child : AccessChild) (sdt : SDT) (jt : JsonTree) :
    Except String (List AccessEntry × List Region × List Region × List String) :=
  if !child.same_as_default then Except.ok ([], [], [], [])
  else
    match isospec_device_defaults child.name jt with
    | none => Except.error "cannot find default settings"
    | some defs =>
      let flag_mapping := isospec_device_flags defs
      let dests := isospec_device_destination defs.destinations_propval jt
      let (a, m, s, w, _aborted) := process_dests flag_mapping sdt dests
      Except.ok (a, m, s, w)

/-- isospec_process_access: fold the child loop in declaration order,
concatenating the three lists and the warnings; a fatal default-lookup
failure propagates out. -/
def isospec_process_access (sdt : SDT) (jt : JsonTree) :
    List AccessChild →
      Except String (List AccessEntry × List Region × List Region × List String)
  | [] => Except.ok ([], [], [], [])
  | c :: rest =>
    match process_access_child c sdt jt with
    | Except.error msg => Except.error msg
    | Except.ok (a, m, s, w) =>
      match isospec_process_access sdt jt rest with
      | Except.error msg => Except.error msg
      | Except.ok (a2, m2, s2, w2) =>
          Except.ok (a ++ a2, m ++ m2, s ++ s2, w ++ w2)

/-! ## Per-subsystem orchestration (the loop body of isospec_domain,
lines 546-580) -/

/-- A subsystem node of the isolation spec, as read by the orchestrator:
name, id, optional cpus collection, optional access node (absence of a
path lookup is the KeyError branch of the corresponding handler). -/
structure IsoSubsystem where
  name : String
  id : Nat
  cpus : Option (List CpuEntry)
  access : Option (List AccessChild)

/-- The output domain node built for one subsystem by
domains_tree_add_subsystem and the property assignments that follow:
constant compatible string, id, the serialized cpus value when the
subsystem had a cpus collection (None is serialized as null, hence the
nested Option), memory and sram only when non-empty, and the access
list. -/
structure DomainNode where
  name : String
  compatible : String
  id : Nat
  cpus : Option (Option (List ResolvedCluster))
  memory : Option (List Region)
  sram : Option (List Region)
  access : List AccessEntry
deriving DecidableEq, Repr

/-- The loop body of isospec_domain for one subsystem.  A missing cpus
collection raises KeyError, which is only logged as info and processing
continues; a missing access node raises KeyError, turned into a fatal
error (process exit); a fatal error escaping isospec_process_access (a
SystemExit, caught by no handler of the loop) likewise ends the run.
The second result component lists the info messages logged. -/
def process_subsystem (sub : IsoSubsystem) (sdt : SDT) (jt : JsonTree) :
    Except String (DomainNode × List String) :=
  let cpusStep : Option (Option (List ResolvedCluster)) × List String :=
    match sub.cpus with
    | none => (none, ["no cpus in /design/subsystems/" ++ sub.name])
    | some cs => (some (isospec_process_cpus sdt cs).1, [])
  match sub.access with
  | none => Except.error ("no access list in /design/subsystems/" ++ sub.name)
  | some accessChildren =>
    match isospec_process_access sdt jt accessChildren with
    | Except.error msg => Except.error msg
    | Except.ok (a, m, s, _w) =>
        Except.ok
          ({ name := sub.name
             compatible := "xilinx,subsystem"
             id := sub.id
             cpus := cpusStep.1
             memory := if m = [] then none else some m
             sram := if s = [] then none else some s
             access := a },
           cpusStep.2)

/-! ## Concrete trees used to evaluate the embedding -/

/-- A hardware tree on which every lookup fails. -/
def sdtNoNodes : SDT :=
  { cnodes := fun _ => [], nodes := fun _ => [], addr_node := fun _ => none }

/-- An isolation-spec tree with no destinations and no default settings. -/
def jtNoDefaults : JsonTree :=
  { spec_nodes := [], has_default_settings := false, default_subsystems := none }

/-- A hardware tree holding an APU cluster with two cortex-a72 cpu
nodes. -/
def sdtApuCluster : SDT :=
  { cnodes := fun c =>
      if c = "arm,cortex-a72" then
        [⟨"cpu@0", some ⟨"APU", "cluster@0"⟩⟩, ⟨"cpu@1", some ⟨"APU", "cluster@0"⟩⟩]
      else []
    nodes := fun _ => []
    addr_node := fun _ => none }

/-- A hardware tree whose memory node carries the six-cell reg list of
the DDR0 scenario. -/
def sdtDdrSixCells : SDT :=
  { cnodes := fun _ => []
    nodes := fun p =>
      if p = "memory@.*" then
        [⟨some ["memory"], some [0x0, 0x0, 0x80000000, 0x0, 0x0, 0x10000000]⟩]
      else []
    addr_node := fun _ => none }

/-- A hardware tree whose memory node carries a four-cell reg list, the
shape the implemented two-cell split actually decodes. -/
def sdtDdrFourCells : SDT :=
  { cnodes := fun _ => []
    nodes := fun p =>
      if p = "memory@.*" then
        [⟨some ["memory"], some [0x0, 0x80000000, 0x0, 0x10000000]⟩]
      else []
    addr_node := fun _ => none }

/-- A hardware tree holding one sram node at address 0x2000. -/
def sdtSramAt : SDT :=
  { cnodes := fun _ => [], nodes := fun _ => []
    addr_node := fun a => if a = 0x2000 then some ⟨"sram@2000"⟩ else none }

/-- A hardware tree holding one device node at address 0x1000. -/
def sdtSerialAt : SDT :=
  { cnodes := fun _ => [], nodes := fun _ => []
    addr_node := fun a => if a = 0x1000 then some ⟨"serial@1000"⟩ else none }

/-- The default definition of device uart0 used by the access fixtures:
no flags property (the absent-property propval), one flag child property
read set true, one destination name. -/
def uartDefaults : DefDevice :=
  { name := "uart0"
    flags_propval := [""]
    flags_children := [("read", "true")]
    destinations_propval := ["dest0"] }

/-- An isolation-spec tree holding one destination record dest0 at
address 0x1000 and default settings for device uart0. -/
def jtUartDefaults : JsonTree :=
  { spec_nodes := [⟨some ⟨"json", [DestElem.dict ⟨"dest0", some 0x1000, some 4⟩]⟩⟩]
    has_default_settings := true
    default_subsystems := some [⟨"default", [⟨"access", [uartDefaults]⟩]⟩] }

/-! ## Theorems -/

/-- C3 counterexample: the claim states that the first matching table
entry wins.  The name APRP matches both cpu patterns, yet the classifier
returns the compatible string of the second entry, and the name DDR0OCM
matches both memory patterns, yet the classifier returns the kind of the
second entry: the scans have no break, so the last match wins. -/
theorem c3_counterexample :
    (matchAPU "APRP" = true ∧ matchRPU "APRP" = true ∧
      lookup_compat "APRP" = "arm,cortex-r5" ∧
      ("arm,cortex-r5" : String) ≠ "arm,cortex-a72") ∧
    (matchDDR0 "DDR0OCM" = true ∧ matchOCM "DDR0OCM" = true ∧
      isospec_memory_type "DDR0OCM" = "sram" ∧
      ("sram" : String) ≠ "memory") := by
  decide

/-- C3 amended: for every name that matches more than one pattern of the
cpu-name table, the compatible string returned is that of the LAST
matching entry, and likewise the memory classifier returns the kind of
the last matching entry of its table; this theorem gives both scans in
closed form. -/
theorem c3_last_match_wins (name : String) :
    (lookup_compat name =
      if matchRPU name then "arm,cortex-r5"
      else if matchAPU name then "arm,cortex-a72"
      else "") ∧
    (isospec_memory_type name =
      if matchOCM name then "sram"
      else if matchDDR0 name then "memory"
      else "") := by
  constructor
  · simp only [lookup_compat, iso_cpus_to_device_tree_map, List.foldl]
  · cases hO : matchOCM name <;> cases hD : matchDDR0 name <;>
      simp [isospec_memory_type, isospec_memory_scan, iso_memory_device_map,
        hO, hD]

/-- C4 counterexample: the six-cell reg list of the claimed scenario
does not yield the region with start 0x80000000 and size 0x10000000;
the code splits the cells as the first two for the start and all four
remaining cells for the size. -/
theorem c4_counterexample :
    isospec_process_memory "DDR0" ⟨"DDR0", none, none⟩ sdtDdrSixCells =
      Except.ok ([⟨0x0, 0x80000000000000000000000010000000⟩], []) ∧
    ([⟨0x0, 0x80000000000000000000000010000000⟩] : List Region) ≠
      [⟨0x80000000, 0x10000000⟩] := by
  exact ⟨rfl, by decide⟩

/-- C4 amended: with the six-cell reg list the resolver yields start 0x0
and the sixteen-byte big-endian concatenation of the remaining four
cells as size, because it takes cells zero and one as the start and all
remaining cells as the size; the region claimed in the scenario, start
0x80000000 and size 0x10000000, arises from the four-cell reg list
0x0, 0x8000_0000, 0x0, 0x1000_0000. -/
theorem c4_reg_split :
    isospec_process_memory "DDR0" ⟨"DDR0", none, none⟩ sdtDdrSixCells =
      Except.ok ([⟨0x0, 0x80000000000000000000000010000000⟩], []) ∧
    isospec_process_memory "DDR0" ⟨"DDR0", none, none⟩ sdtDdrFourCells =
      Except.ok ([⟨0x80000000, 0x10000000⟩], []) := by
  exact ⟨rfl, rfl⟩

/-- C5: a subsystem with cpu entries APU0 and APU1 (the latter secure)
resolved against a hardware APU cluster containing cpu at 0 and cpu at 1
produces, in input order, exactly the two resolved cluster records with
masks 0x1 and 0x2 and the expected mode fields, with no warnings. -/
theorem c5_cpu_scenario :
    isospec_process_cpus sdtApuCluster
        [⟨"APU0", none, none⟩, ⟨"APU1", some true, none⟩] =
      (some [⟨"APU", "0x1", false, "0x0"⟩, ⟨"APU", "0x2", true, "0x0"⟩], []) := by
  rfl

/-- C8: destination resolution is monotonic in the input list; for every
spec tree and destination names a and b, resolving the two-element list
is the in-order concatenation of resolving each name alone. -/
theorem c8_destination_concat (jt : JsonTree) (a b : String) :
    isospec_device_destination [a, b] jt =
      isospec_device_destination [a] jt ++ isospec_device_destination [b] jt := by
  simp [isospec_device_destination]

/-- C2 counterexample: the claim states that a cpu entry whose mapped
compatible string has no hardware match makes the resolver warn and
return none for the whole list.  The name APU0 maps to a compatible
string, the tree has no node for it, and the resolver returns the empty
some-list with no warning: the entry is skipped silently. -/
theorem c2_counterexample :
    lookup_compat "APU0" = "arm,cortex-a72" ∧
    sdtNoNodes.cnodes "arm,cortex-a72" = [] ∧
    isospec_process_cpus sdtNoNodes [⟨"APU0", none, none⟩] = (some [], []) ∧
    (some ([] : List ResolvedCluster) ≠ none) := by
  refine ⟨rfl, rfl, rfl, ?_⟩
  simp

/-- C2 amended: when the hardware tree contains no node matching the
mapped compatible string, the cpu entry is skipped silently — no warning
and no abort — and processing continues with the remaining entries; the
warn-and-return-none policy applies only when a matching node exists but
has no parent cluster. -/
theorem c2_no_matching_nodes_skips (sdt : SDT) (c : CpuEntry)
    (rest : List CpuEntry)
    (hcompat : lookup_compat c.name ≠ "")
    (hnodes : sdt.cnodes (lookup_compat c.name) = []) :
    isospec_process_cpus sdt (c :: rest) = isospec_process_cpus sdt rest := by
  have hstep : process_one_cpu sdt c = CpuStep.noNodes := by
    simp only [process_one_cpu, if_neg hcompat, hnodes]
  simp only [isospec_process_cpus, hstep]

/-- Witness for the C2 amended theorem at the concrete skipped entry. -/
theorem c2_witness :
    lookup_compat "APU0" ≠ "" ∧
    sdtNoNodes.cnodes (lookup_compat "APU0") = [] ∧
    isospec_process_cpus sdtNoNodes [⟨"APU0", none, none⟩] =
      isospec_process_cpus sdtNoNodes [] :=
  ⟨by decide, rfl,
    c2_no_matching_nodes_skips sdtNoNodes ⟨"APU0", none, none⟩ [] (by decide) rfl⟩

/-- C6: for a destination classified as sram, an address hit in the
hardware tree only logs the unsupported-processing warning and appends
no region, while an address miss appends exactly one region fabricated
from the destination fields. -/
theorem c6_sram_resolution (name : String) (dest : Dest) (sdt : SDT) (a : Nat)
    (htype : isospec_memory_type name = "sram")
    (haddr : dest.addr = some a) :
    (∀ t, sdt.addr_node a = some t →
        isospec_process_memory name dest sdt =
          Except.ok ([], ["target node " ++ t.name ++
            " found, but no processing is available"])) ∧
    (∀ sz, sdt.addr_node a = none → dest.size = some sz →
        isospec_process_memory name dest sdt = Except.ok ([⟨a, sz⟩], [])) := by
  have hne : ¬ isospec_memory_type name = "memory" := by
    rw [htype]; decide
  constructor
  · intro t ht
    simp [isospec_process_memory, htype, hne, haddr, ht]
  · intro sz ht hsz
    simp [isospec_process_memory, htype, hne, haddr, ht, hsz]

/-- Witness for C6 at a concrete sram destination, in both branches. -/
theorem c6_witness :
    isospec_memory_type "OCM0" = "sram" ∧
    isospec_process_memory "OCM0" ⟨"OCM0", some 0x2000, some 16⟩ sdtSramAt =
      Except.ok ([], ["target node sram@2000 found, but no processing is available"]) ∧
    isospec_process_memory "OCM0" ⟨"OCM0", some 0x3000, some 16⟩ sdtSramAt =
      Except.ok ([⟨0x3000, 16⟩], []) :=
  ⟨by decide,
    (c6_sram_resolution "OCM0" ⟨"OCM0", some 0x2000, some 16⟩ sdtSramAt 0x2000
      (by decide) rfl).1 ⟨"sram@2000"⟩ rfl,
    (c6_sram_resolution "OCM0" ⟨"OCM0", some 0x3000, some 16⟩ sdtSramAt 0x3000
      (by decide) rfl).2 16 rfl rfl⟩

/-- C10: an access child node without a same_as_default property is
dropped without trace — nothing is appended to any of the three lists,
no warning is emitted, and processing continues with the remaining
children (the failed property lookup is caught and ignored). -/
theorem c10_silent_skip (child : AccessChild) (rest : List AccessChild)
    (sdt : SDT) (jt : JsonTree)
    (h : child.same_as_default = false) :
    isospec_process_access sdt jt (child :: rest) =
      isospec_process_access sdt jt rest := by
  have hchild : process_access_child child sdt jt = Except.ok ([], [], [], []) := by
    simp [process_access_child, h]
  cases hrest : isospec_process_access sdt jt rest with
  | error msg => simp [isospec_process_access, hchild, hrest]
  | ok r => simp [isospec_process_access, hchild, hrest]

/-- Witness for C10: the uart0 child without same_as_default vanishes
from the output of the two-child access node. -/
theorem c10_witness :
    isospec_process_access sdtSerialAt jtUartDefaults
        [⟨"uart0", false, ["dest0"]⟩, ⟨"uart0", true, []⟩] =
      isospec_process_access sdtSerialAt jtUartDefaults [⟨"uart0", true, []⟩] :=
  c10_silent_skip ⟨"uart0", false, ["dest0"]⟩ [⟨"uart0", true, []⟩]
    sdtSerialAt jtUartDefaults rfl

/-- C1 counterexample: the claim states that an access child without
same_as_default still contributes resolved entries for its destinations.
The uart0 child names a destination that is present in the spec tree and
resolves to a hardware node (flipping only the same_as_default flag
yields the access entry), yet without the flag the resolver returns all
three lists empty. -/
theorem c1_counterexample :
    isospec_process_access sdtSerialAt jtUartDefaults
        [⟨"uart0", false, ["dest0"]⟩] = Except.ok ([], [], [], []) ∧
    isospec_device_destination ["dest0"] jtUartDefaults =
      [⟨"dest0", some 0x1000, some 4⟩] ∧
    sdtSerialAt.addr_node 0x1000 = some ⟨"serial@1000"⟩ ∧
    isospec_process_access sdtSerialAt jtUartDefaults [⟨"uart0", true, []⟩] =
      Except.ok ([⟨"serial@1000", ["read"]⟩], [], [], []) := by
  exact ⟨rfl, rfl, rfl, rfl⟩

/-- C1 amended: only access children carrying same_as_default are
processed.  For such a child the resolver extracts the flags from the
resolved default definition and resolves the destinations property of
the default definition against the spec tree — a destination with a
hardware address match yields the corresponding access entry — while a
child without same_as_default is skipped entirely and contributes
nothing. -/
theorem c1_access_child_resolution (child : AccessChild) (sdt : SDT)
    (jt : JsonTree) :
    (child.same_as_default = false →
      isospec_process_access sdt jt [child] = Except.ok ([], [], [], [])) ∧
    (∀ defs d a t,
      child.same_as_default = true →
      isospec_device_defaults child.name jt = some defs →
      isospec_device_destination defs.destinations_propval jt = [d] →
      d.addr = some a →
      sdt.addr_node a = some t →
      isospec_process_access sdt jt [child] =
        Except.ok ([⟨t.name, isospec_device_flags defs⟩], [], [], [])) := by
  constructor
  · intro h
    simp [isospec_process_access, process_access_child, h]
  · intro defs d a t h1 h2 h3 h4 h5
    simp [isospec_process_access, process_access_child, h1, h2, h3,
      process_dests, h4, h5]

/-- Witness for the C1 amended theorem at the concrete uart0 child, in
both branches. -/
theorem c1_witness :
    isospec_process_access sdtSerialAt jtUartDefaults
        [⟨"uart0", false, ["dest0"]⟩] = Except.ok ([], [], [], []) ∧
    isospec_process_access sdtSerialAt jtUartDefaults [⟨"uart0", true, []⟩] =
      Except.ok ([⟨"serial@1000", ["read"]⟩], [], [], []) :=
  ⟨(c1_access_child_resolution ⟨"uart0", false, ["dest0"]⟩ sdtSerialAt
      jtUartDefaults).1 rfl,
    (c1_access_child_resolution ⟨"uart0", true, []⟩ sdtSerialAt
      jtUartDefaults).2 uartDefaults ⟨"dest0", some 0x1000, some 4⟩ 0x1000
      ⟨"serial@1000"⟩ rfl rfl rfl rfl rfl⟩

/-- C7: a subsystem without an access node and a same_as_default
reference that resolves to no default settings both end the run with a
fatal error, while a subsystem without a cpus collection is only logged
and processing continues to a successful domain node. -/
theorem c7_error_policy :
    (∀ (sub : IsoSubsystem) (sdt : SDT) (jt : JsonTree),
      sub.access = none →
      process_subsystem sub sdt jt =
        Except.error ("no access list in /design/subsystems/" ++ sub.name)) ∧
    (∀ (sub : IsoSubsystem) (sdt : SDT) (jt : JsonTree) (child : AccessChild)
        (rest : List AccessChild),
      sub.access = some (child :: rest) →
      child.same_as_default = true →
      isospec_device_defaults child.name jt = none →
      process_subsystem sub sdt jt =
        Except.error "cannot find default settings") ∧
    (∀ (sub : IsoSubsystem) (sdt : SDT) (jt : JsonTree),
      sub.cpus = none → sub.access = some [] →
      process_subsystem sub sdt jt =
        Except.ok
          ({ name := sub.name, compatible := "xilinx,subsystem", id := sub.id,
             cpus := none, memory := none, sram := none, access := [] },
           ["no cpus in /design/subsystems/" ++ sub.name])) := by
  refine ⟨?_, ?_, ?_⟩
  · intro sub sdt jt h
    simp [process_subsystem, h]
  · intro sub sdt jt child rest h1 h2 h3
    simp [process_subsystem, h1, isospec_process_access,
      process_access_child, h2, h3]
  · intro sub sdt jt h1 h2
    simp [process_subsystem, h1, h2, isospec_process_access]

/-- Witness for C7 at three concrete subsystems: no access node, a
default reference that cannot be resolved, and no cpus collection. -/
theorem c7_witness :
    process_subsystem ⟨"s1", 1, none, none⟩ sdtNoNodes jtNoDefaults =
      Except.error "no access list in /design/subsystems/s1" ∧
    process_subsystem ⟨"s2", 2, some [], some [⟨"uart0", true, []⟩]⟩
        sdtNoNodes jtNoDefaults =
      Except.error "cannot find default settings" ∧
    process_subsystem ⟨"s3", 3, none, some []⟩ sdtNoNodes jtNoDefaults =
      Except.ok (⟨"s3", "xilinx,subsystem", 3, none, none, none, []⟩,
        ["no cpus in /design/subsystems/s3"]) :=
  ⟨c7_error_policy.1 ⟨"s1", 1, none, none⟩ sdtNoNodes jtNoDefaults rfl,
    c7_error_policy.2.1 ⟨"s2", 2, some [], some [⟨"uart0", true, []⟩]⟩
      sdtNoNodes jtNoDefaults ⟨"uart0", true, []⟩ [] rfl rfl rfl,
    c7_error_policy.2.2 ⟨"s3", 3, none, some []⟩ sdtNoNodes jtNoDefaults
      rfl rfl⟩

/-- Helper for C9: under a digit-free name, a mapped compatible string,
a non-empty match list and a present parent cluster, the loop body
produces a record whose cpumask is 0xf. -/
theorem process_one_cpu_no_digits (sdt : SDT) (cpu : CpuEntry)
    (hdigits : firstDigitRun cpu.name = none)
    (hcompat : lookup_compat cpu.name ≠ "")
    (n0 : HwCpuNode) (ns : List HwCpuNode) (cl : HwCluster)
    (hnodes : sdt.cnodes (lookup_compat cpu.name) = n0 :: ns)
    (hparent : n0.parent = some cl) :
    ∃ rc, process_one_cpu sdt cpu = CpuStep.ok rc ∧ rc.cpumask = "0xf" := by
  simp only [process_one_cpu, if_neg hcompat, hnodes, hdigits, hparent]
  exact ⟨_, rfl, rfl⟩

/-- C9: a cpu entry whose digit-free name maps to a compatible string
with at least one matching hardware node and whose resolution succeeds
(the list result is some) contributes, as the first produced record, a
cluster whose cpumask is 0xf. -/
theorem c9_no_digits_mask (sdt : SDT) (cpu : CpuEntry)
    (rest : List CpuEntry) (out : List ResolvedCluster) (warns : List String)
    (hdigits : firstDigitRun cpu.name = none)
    (hcompat : lookup_compat cpu.name ≠ "")
    (hnodes : sdt.cnodes (lookup_compat cpu.name) ≠ [])
    (hrun : isospec_process_cpus sdt (cpu :: rest) = (some out, warns)) :
    ∃ rc rest2, out = rc :: rest2 ∧ rc.cpumask = "0xf" := by
  rcases hn : sdt.cnodes (lookup_compat cpu.name) with _ | ⟨n0, ns⟩
  · exact absurd hn hnodes
  · rcases hp : n0.parent with _ | cl
    · have hstep : process_one_cpu sdt cpu = CpuStep.noCluster := by
        simp only [process_one_cpu, if_neg hcompat, hn, hp]
      rw [isospec_process_cpus, hstep] at hrun
      simp at hrun
    · obtain ⟨rc, hok, hmask⟩ :=
        process_one_cpu_no_digits sdt cpu hdigits hcompat n0 ns cl hn hp
      rw [isospec_process_cpus, hok] at hrun
      rcases hrest : isospec_process_cpus sdt rest with ⟨r, w⟩
      rw [hrest] at hrun
      cases r with
      | none => simp at hrun
      | some l =>
        have h1 : some (rc :: l) = some out := congrArg Prod.fst hrun
        exact ⟨rc, l, (Option.some.inj h1).symm, hmask⟩

/-- Witness for C9 at a concrete digit-free cpu entry. -/
theorem c9_witness :
    firstDigitRun "APU" = none ∧
    lookup_compat "APU" ≠ "" ∧
    sdtApuCluster.cnodes (lookup_compat "APU") ≠ [] ∧
    (∃ rc rest2,
      [(⟨"APU", "0xf", false, "0x0"⟩ : ResolvedCluster)] = rc :: rest2 ∧
      rc.cpumask = "0xf") :=
  ⟨rfl, by decide, by decide,
    c9_no_digits_mask sdtApuCluster ⟨"APU", none, none⟩ [] _ [] rfl
      (by decide) (by decide) rfl⟩

end Isospec
